import Mathlib

/-!
Verification of the resilient cached-fetch orchestration layer of the
podr-service edge gateway (src/src/index.ts), as a shallow embedding.

Modelled functions (names follow the source):
  - circuit breaker: `isCircuitOpen`, `recordSuccess`, `recordFailure`
    (src/src/index.ts:823-857) over `CircuitBreakerState`
    (src/src/index.ts:300-304);
  - orchestrators: `cachedFetchViaProxy` (869-940), `searchRequest`
    (iTunes fallback path, 1066-1121), `topRequest` (1133-1207),
    `podcastIndexSearch` (448-514);
  - background revalidation: `revalidateCacheViaProxy` (945-987),
    `revalidateTopPodcastsCache` (1212-1253);
  - the top-level error mapping of the `fetch` handler's catch block
    (2269-2295).

JavaScript `Date.now()` is passed in explicitly as `now : Int`
(milliseconds).  A number that may be `NaN` (the result of `parseInt` on a
non-numeric string) is `Option Int`, with `none` for `NaN`; comparisons
against `NaN` are `false`, as in JavaScript.  The edge cache is passed in as
the `Option CacheEntry` that `cache.match` would return, and writes to it
are reported in the `cachePut` field of the outcome.  The upstream
transport (container proxy or direct fetch) is passed in as a `Transport`
value: either a response or a thrown error message.
-/

namespace Podr

/-- Circuit breaker failure threshold (src/src/index.ts:294). -/
def CIRCUIT_BREAKER_THRESHOLD : Nat := 5

/-- Circuit breaker recovery window in milliseconds (src/src/index.ts:295). -/
def CIRCUIT_BREAKER_RECOVERY_MS : Int := 30000

/-- Staleness tolerance for stale-while-revalidate, in seconds
(src/src/index.ts:284). -/
def CACHE_STALE_TOLERANCE : Int := 86400

/-- TTL for search results, in seconds (src/src/index.ts:280). -/
def CACHE_TTL_SEARCH : Int := 86400

/-- TTL for top podcasts, in seconds (src/src/index.ts:281). -/
def CACHE_TTL_TOP : Int := 7200

/-- TTL for podcast detail, in seconds (src/src/index.ts:282). -/
def CACHE_TTL_PODCAST_DETAIL : Int := 14400

/-- The three circuit breaker states: the strings 'closed', 'open',
'half-open' in the source. -/
inductive CBStatus where
  | Closed
  | Open
  | HalfOpen
deriving DecidableEq, Repr

/-- `CircuitBreakerState` (src/src/index.ts:223-227, fields
`failures`, `lastFailure`, `state`). -/
structure CircuitBreakerState where
  failures : Nat
  lastFailure : Int
  state : CBStatus
deriving DecidableEq, Repr

/-- The module-level initial breaker value (src/src/index.ts:300-304). -/
def initialCircuitBreaker : CircuitBreakerState :=
  { failures := 0, lastFailure := 0, state := CBStatus.Closed }

/-- `isCircuitOpen()` (src/src/index.ts:823-837).  Returns the boolean the
source returns together with the breaker state after the call (the source
mutates the module-level singleton). -/
def isCircuitOpen (now : Int) (cb : CircuitBreakerState) :
    Bool × CircuitBreakerState :=
  match cb.state with
  | CBStatus.Closed => (false, cb)
  | CBStatus.Open =>
      if CIRCUIT_BREAKER_RECOVERY_MS < now - cb.lastFailure then
        (false, { cb with state := CBStatus.HalfOpen })
      else
        (true, cb)
  | CBStatus.HalfOpen => (false, cb)

/-- `recordSuccess()` (src/src/index.ts:842-845). -/
def recordSuccess (cb : CircuitBreakerState) : CircuitBreakerState :=
  { cb with failures := 0, state := CBStatus.Closed }

/-- `recordFailure()` (src/src/index.ts:850-857); `now` is the
`Date.now()` read at src/src/index.ts:852. -/
def recordFailure (now : Int) (cb : CircuitBreakerState) :
    CircuitBreakerState :=
  let f := cb.failures + 1
  { failures := f
    lastFailure := now
    state := if CIRCUIT_BREAKER_THRESHOLD ≤ f then CBStatus.Open else cb.state }

/-- Fold a list of decimal digit characters into a natural number. -/
def digitsToNat (cs : List Char) : Nat :=
  cs.foldl (fun a c => a * 10 + (c.toNat - 48)) 0

/-- JavaScript `parseInt(s, 10)`: skip leading whitespace, read an optional
sign and then the maximal run of leading digits; `none` models `NaN` (no
digits found). -/
def jsParseInt (s : String) : Option Int :=
  let cs := (s.toList).dropWhile (fun c => c.isWhitespace)
  let signAndDigits : Int × List Char :=
    match cs with
    | '-' :: rest => (-1, rest)
    | '+' :: rest => (1, rest)
    | other => (1, other)
  let digs := signAndDigits.2.takeWhile (fun c => c.isDigit)
  if digs.isEmpty then none
  else some (signAndDigits.1 * (digitsToNat digs : Int))

/-- JavaScript `a > b` where `a` may be `NaN` (`none`): false on `NaN`. -/
def jsGtNum (a : Option Int) (b : Int) : Bool :=
  match a with
  | none => false
  | some x => decide (b < x)

/-- JavaScript `a < b` where `a` may be `NaN` (`none`): false on `NaN`. -/
def jsLtNum (a : Option Int) (b : Int) : Bool :=
  match a with
  | none => false
  | some x => decide (x < b)

/-- A cached response as the orchestrators see it: the value of its `age`
header (`headers.get('age')`, `none` when absent) and its body. -/
structure CacheEntry where
  ageHeader : Option String
  body : String
deriving DecidableEq, Repr

/-- `const ageSeconds = age ? parseInt(age, 10) : 0`
(src/src/index.ts:892-893): a `null` or empty header is falsy and yields 0;
otherwise JavaScript `parseInt`, which may be `NaN` (`none`). -/
def ageSecondsOf (ageHeader : Option String) : Option Int :=
  match ageHeader with
  | none => some 0
  | some s => if s = "" then some 0 else jsParseInt s

/-- A response produced by the upstream transport. -/
structure UpstreamResponse where
  status : Nat
  statusText : String
  body : String
deriving DecidableEq, Repr

/-- `response.ok`: status in the range 200-299. -/
def UpstreamResponse.ok (r : UpstreamResponse) : Bool :=
  decide (200 ≤ r.status) && decide (r.status < 300)

/-- What the upstream transport (container proxy or direct fetch) does when
invoked: return a response, or throw. -/
inductive Transport where
  | resp (r : UpstreamResponse)
  | thrown (msg : String)
deriving DecidableEq, Repr

/-- The successful result of an orchestrator call: the `{data/response,
cacheHit}` pair of the source, with `hit` for `cacheHit: true` (the cached
entry is returned) and `miss` for `cacheHit: false` (a freshly fetched
response is returned). -/
inductive FetchResult where
  | hit (e : CacheEntry)
  | miss (r : UpstreamResponse)
deriving DecidableEq, Repr

/-- An error thrown by an orchestrator call. -/
inductive FetchError where
  | serviceUnavailable
  | thrown (msg : String)
deriving DecidableEq, Repr

instance {ε α : Type} [DecidableEq ε] [DecidableEq α] :
    DecidableEq (Except ε α) := fun a b =>
  match a, b with
  | Except.ok x, Except.ok y =>
      decidable_of_iff (x = y) ⟨fun h => by rw [h], fun h => by injection h⟩
  | Except.ok _, Except.error _ => isFalse (fun h => by injection h)
  | Except.error _, Except.ok _ => isFalse (fun h => by injection h)
  | Except.error x, Except.error y =>
      decidable_of_iff (x = y) ⟨fun h => by rw [h], fun h => by injection h⟩

/-- One orchestrator invocation, fully observed: the returned value or
thrown error, the breaker state afterwards, whether the upstream transport
was invoked, whether a background revalidation was scheduled via
`ctx.waitUntil`, and the body written to the cache (`none` when nothing was
written). -/
structure FetchModelOutcome where
  result : Except FetchError FetchResult
  breaker : CircuitBreakerState
  transportInvoked : Bool
  revalidationScheduled : Bool
  cachePut : Option String
deriving DecidableEq, Repr

/-- `cachedFetchViaProxy(url, cacheTtl, env, ctx)` (src/src/index.ts:869-940).
`cached` is what `cache.match(cacheKey)` returns; `hasCtx` is whether a
`ctx` was passed (the `&& ctx` of line 895); `t` is what the transport does
if invoked. -/
def cachedFetchViaProxy (now : Int) (cacheTtl : Int)
    (cb : CircuitBreakerState) (cached : Option CacheEntry) (hasCtx : Bool)
    (t : Transport) : FetchModelOutcome :=
  let checked := isCircuitOpen now cb
  if checked.1 then
    match cached with
    | some e =>
        { result := Except.ok (FetchResult.hit e), breaker := checked.2
          transportInvoked := false, revalidationScheduled := false
          cachePut := none }
    | none =>
        { result := Except.error FetchError.serviceUnavailable
          breaker := checked.2, transportInvoked := false
          revalidationScheduled := false, cachePut := none }
  else
    match cached with
    | some e =>
        let ageSeconds := ageSecondsOf e.ageHeader
        let reval := jsGtNum ageSeconds cacheTtl
          && jsLtNum ageSeconds CACHE_STALE_TOLERANCE && hasCtx
        { result := Except.ok (FetchResult.hit e), breaker := checked.2
          transportInvoked := false, revalidationScheduled := reval
          cachePut := none }
    | none =>
        match t with
        | Transport.resp r =>
            if r.ok then
              { result := Except.ok (FetchResult.miss r)
                breaker := recordSuccess checked.2, transportInvoked := true
                revalidationScheduled := false, cachePut := some r.body }
            else
              { result := Except.ok (FetchResult.miss r)
                breaker := recordFailure now checked.2
                transportInvoked := true, revalidationScheduled := false
                cachePut := none }
        | Transport.thrown msg =>
            { result := Except.error (FetchError.thrown msg)
              breaker := recordFailure now checked.2, transportInvoked := true
              revalidationScheduled := false, cachePut := none }

/-- The iTunes-fallback path of `searchRequest(query, limit, env, ctx)`
(src/src/index.ts:1066-1121), reached with a non-empty query and the
Podcast Index feature disabled.  A plain cache hit is returned with no age
check; on a cache miss, a non-ok response records a breaker failure and
throws `iTunes API error: status statusText`; there is no try/catch, so a
thrown transport error propagates without touching the breaker. -/
def searchRequest (now : Int) (cb : CircuitBreakerState)
    (cached : Option CacheEntry) (t : Transport) : FetchModelOutcome :=
  let checked := isCircuitOpen now cb
  if checked.1 then
    match cached with
    | some e =>
        { result := Except.ok (FetchResult.hit e), breaker := checked.2
          transportInvoked := false, revalidationScheduled := false
          cachePut := none }
    | none =>
        { result := Except.error FetchError.serviceUnavailable
          breaker := checked.2, transportInvoked := false
          revalidationScheduled := false, cachePut := none }
  else
    match cached with
    | some e =>
        { result := Except.ok (FetchResult.hit e), breaker := checked.2
          transportInvoked := false, revalidationScheduled := false
          cachePut := none }
    | none =>
        match t with
        | Transport.resp r =>
            if r.ok then
              { result := Except.ok (FetchResult.miss r)
                breaker := recordSuccess checked.2, transportInvoked := true
                revalidationScheduled := false, cachePut := some r.body }
            else
              { result := Except.error (FetchError.thrown
                  ("iTunes API error: " ++ toString r.status ++ " "
                    ++ r.statusText))
                breaker := recordFailure now checked.2
                transportInvoked := true, revalidationScheduled := false
                cachePut := none }
        | Transport.thrown msg =>
            { result := Except.error (FetchError.thrown msg)
              breaker := checked.2, transportInvoked := true
              revalidationScheduled := false, cachePut := none }

/-- `topRequest(limit, genre, env, ctx)` (src/src/index.ts:1133-1207).
Like `cachedFetchViaProxy` on hits (stale-while-revalidate with the fixed
`CACHE_TTL_TOP`), but a non-ok miss records a failure and throws, and a
thrown transport error propagates without touching the breaker (no
try/catch around the fetch). -/
def topRequest (now : Int) (cb : CircuitBreakerState)
    (cached : Option CacheEntry) (hasCtx : Bool) (t : Transport) :
    FetchModelOutcome :=
  let checked := isCircuitOpen now cb
  if checked.1 then
    match cached with
    | some e =>
        { result := Except.ok (FetchResult.hit e), breaker := checked.2
          transportInvoked := false, revalidationScheduled := false
          cachePut := none }
    | none =>
        { result := Except.error FetchError.serviceUnavailable
          breaker := checked.2, transportInvoked := false
          revalidationScheduled := false, cachePut := none }
  else
    match cached with
    | some e =>
        let ageSeconds := ageSecondsOf e.ageHeader
        let reval := jsGtNum ageSeconds CACHE_TTL_TOP
          && jsLtNum ageSeconds CACHE_STALE_TOLERANCE && hasCtx
        { result := Except.ok (FetchResult.hit e), breaker := checked.2
          transportInvoked := false, revalidationScheduled := reval
          cachePut := none }
    | none =>
        match t with
        | Transport.resp r =>
            if r.ok then
              { result := Except.ok (FetchResult.miss r)
                breaker := recordSuccess checked.2, transportInvoked := true
                revalidationScheduled := false, cachePut := some r.body }
            else
              { result := Except.error (FetchError.thrown
                  ("iTunes API error: " ++ toString r.status ++ " "
                    ++ r.statusText))
                breaker := recordFailure now checked.2
                transportInvoked := true, revalidationScheduled := false
                cachePut := none }
        | Transport.thrown msg =>
            { result := Except.error (FetchError.thrown msg)
              breaker := checked.2, transportInvoked := true
              revalidationScheduled := false, cachePut := none }

/-- `podcastIndexSearch(query, limit, env, _ctx)` (src/src/index.ts:448-514),
with credentials configured.  The body after the cache check sits in a
try/catch whose catch also calls `recordFailure()` and rethrows; a non-ok
response therefore records a breaker failure twice: once at line 489 and
once more in the catch at line 511, because the throw at line 490 is caught
by the function's own catch block. -/
def podcastIndexSearch (now : Int) (cb : CircuitBreakerState)
    (cached : Option CacheEntry) (t : Transport) : FetchModelOutcome :=
  let checked := isCircuitOpen now cb
  if checked.1 then
    match cached with
    | some e =>
        { result := Except.ok (FetchResult.hit e), breaker := checked.2
          transportInvoked := false, revalidationScheduled := false
          cachePut := none }
    | none =>
        { result := Except.error FetchError.serviceUnavailable
          breaker := checked.2, transportInvoked := false
          revalidationScheduled := false, cachePut := none }
  else
    match cached with
    | some e =>
        { result := Except.ok (FetchResult.hit e), breaker := checked.2
          transportInvoked := false, revalidationScheduled := false
          cachePut := none }
    | none =>
        match t with
        | Transport.resp r =>
            if r.ok then
              { result := Except.ok (FetchResult.miss r)
                breaker := recordSuccess checked.2, transportInvoked := true
                revalidationScheduled := false, cachePut := some r.body }
            else
              { result := Except.error (FetchError.thrown
                  ("Podcast Index API error: " ++ toString r.status ++ " "
                    ++ r.statusText))
                breaker := recordFailure now (recordFailure now checked.2)
                transportInvoked := true, revalidationScheduled := false
                cachePut := none }
        | Transport.thrown msg =>
            { result := Except.error (FetchError.thrown msg)
              breaker := recordFailure now checked.2, transportInvoked := true
              revalidationScheduled := false, cachePut := none }

/-- The observable outcome of one background revalidation run: breaker
state afterwards, body written to the cache (`none` when the entry is left
untouched), and whether the run threw to its scheduler. -/
structure RevalidationOutcome where
  breaker : CircuitBreakerState
  cachePut : Option String
  threw : Bool
deriving DecidableEq, Repr

/-- `revalidateCacheViaProxy(url, cacheTtl, cache, cacheKey, env)`
(src/src/index.ts:945-987).  The whole body is wrapped in try/catch, so the
task never throws. -/
def revalidateCacheViaProxy (now : Int) (cb : CircuitBreakerState)
    (t : Transport) : RevalidationOutcome :=
  match t with
  | Transport.resp r =>
      if r.ok then
        { breaker := recordSuccess cb, cachePut := some r.body, threw := false }
      else
        { breaker := recordFailure now cb, cachePut := none, threw := false }
  | Transport.thrown _ =>
      { breaker := recordFailure now cb, cachePut := none, threw := false }

/-- `revalidateTopPodcastsCache(url, env, cache, cacheKey)`
(src/src/index.ts:1212-1253); same shape as `revalidateCacheViaProxy`. -/
def revalidateTopPodcastsCache (now : Int) (cb : CircuitBreakerState)
    (t : Transport) : RevalidationOutcome :=
  match t with
  | Transport.resp r =>
      if r.ok then
        { breaker := recordSuccess cb, cachePut := some r.body, threw := false }
      else
        { breaker := recordFailure now cb, cachePut := none, threw := false }
  | Transport.thrown _ =>
      { breaker := recordFailure now cb, cachePut := none, threw := false }

/-- What the API client receives: status code and body text. -/
structure ClientResponse where
  status : Nat
  body : String
deriving DecidableEq, Repr

/-- The non-Response arm of the top-level `fetch` handler's catch block
(src/src/index.ts:2284-2294): `errorMessage = error instanceof Error ?
error.message : 'Internal Server Error'`, returned to the client as
`createErrorResponse(errorMessage, 500, 'Internal Server Error')`
(src/src/index.ts:1905-1916). `errMsg` is `some` of the `Error`'s message,
or `none` for a non-Error throw. -/
def fetchHandlerCatch (errMsg : Option String) : ClientResponse :=
  match errMsg with
  | some m => { status := 500, body := m }
  | none => { status := 500, body := "Internal Server Error" }

/-- The documented breaker invariant: an open breaker has accumulated at
least the failure threshold. -/
def cbInvariant (cb : CircuitBreakerState) : Prop :=
  cb.state = CBStatus.Open → CIRCUIT_BREAKER_THRESHOLD ≤ cb.failures

instance (cb : CircuitBreakerState) : Decidable (cbInvariant cb) :=
  decidable_of_iff
    (cb.state = CBStatus.Open → CIRCUIT_BREAKER_THRESHOLD ≤ cb.failures)
    Iff.rfl

/-- Breaker states reachable from the module-level initial value by the
three breaker operations. -/
inductive ReachableCB : CircuitBreakerState → Prop where
  | init : ReachableCB initialCircuitBreaker
  | check (now : Int) {cb : CircuitBreakerState} :
      ReachableCB cb → ReachableCB (isCircuitOpen now cb).2
  | success {cb : CircuitBreakerState} :
      ReachableCB cb → ReachableCB (recordSuccess cb)
  | failure (now : Int) {cb : CircuitBreakerState} :
      ReachableCB cb → ReachableCB (recordFailure now cb)

theorem cbInvariant_isCircuitOpen (now : Int) (cb : CircuitBreakerState)
    (h : cbInvariant cb) : cbInvariant (isCircuitOpen now cb).2 := by
  unfold isCircuitOpen
  cases hst : cb.state with
  | Closed => simpa [hst] using h
  | HalfOpen => simpa [hst] using h
  | Open =>
      by_cases hel : CIRCUIT_BREAKER_RECOVERY_MS < now - cb.lastFailure
      · intro hc
        simp [hst, hel, cbInvariant] at hc
      · simpa [hst, hel] using h

theorem cbInvariant_recordSuccess (cb : CircuitBreakerState)
    (_ : cbInvariant cb) : cbInvariant (recordSuccess cb) := by
  intro hc
  simp [recordSuccess] at hc

theorem cbInvariant_recordFailure (now : Int) (cb : CircuitBreakerState)
    (h : cbInvariant cb) : cbInvariant (recordFailure now cb) := by
  intro hc
  by_cases hth : CIRCUIT_BREAKER_THRESHOLD ≤ cb.failures + 1
  · simpa [recordFailure] using hth
  · simp [recordFailure, hth] at hc
    have := h hc
    simp [recordFailure]
    omega

theorem cbInvariant_reachable (cb : CircuitBreakerState)
    (h : ReachableCB cb) : cbInvariant cb := by
  induction h with
  | init => decide
  | check now _ ih => exact cbInvariant_isCircuitOpen now _ ih
  | success _ ih => exact cbInvariant_recordSuccess _ ih
  | failure now _ ih => exact cbInvariant_recordFailure now _ ih

/-- C6: the predicate `state == open implies failureCount >= 5` holds in
the initial breaker state, is preserved by `isCircuitOpen`'s open to
half-open transition, by `recordSuccess` and by `recordFailure`, and
therefore holds in every reachable `CircuitBreakerState`. -/
theorem C6_breaker_invariant :
    cbInvariant initialCircuitBreaker
    ∧ (∀ (now : Int) (cb : CircuitBreakerState),
        cbInvariant cb → cbInvariant (isCircuitOpen now cb).2)
    ∧ (∀ cb : CircuitBreakerState,
        cbInvariant cb → cbInvariant (recordSuccess cb))
    ∧ (∀ (now : Int) (cb : CircuitBreakerState),
        cbInvariant cb → cbInvariant (recordFailure now cb))
    ∧ (∀ cb : CircuitBreakerState, ReachableCB cb → cbInvariant cb) :=
  ⟨by decide, cbInvariant_isCircuitOpen, cbInvariant_recordSuccess,
    cbInvariant_recordFailure, cbInvariant_reachable⟩

/-- Witness for C6: the invariant instantiated on a concrete reachable
state, one `recordFailure` from the initial state. -/
theorem C6_breaker_invariant_witness :
    cbInvariant (recordFailure 7 initialCircuitBreaker) :=
  C6_breaker_invariant.2.2.2.2 (recordFailure 7 initialCircuitBreaker)
    (ReachableCB.failure 7 ReachableCB.init)

/-- The breaker after one Podcast Index search call whose upstream response
has status 500, at time `now`, with no cached entry. -/
def pisFailedCall (now : Int) (cb : CircuitBreakerState) :
    CircuitBreakerState :=
  (podcastIndexSearch now cb none
    (Transport.resp
      { status := 500, statusText := "Internal Server Error", body := "" })).breaker

/-- C4 (code bug): `podcastIndexSearch` records a breaker failure twice per
failed-status call (once at src/src/index.ts:489 and once more when its own
catch at line 511 re-records the failure it just threw), so starting from a
fresh breaker the circuit is already open after the 3rd consecutive failed
search call, not the 5th: failure counts run 2, 4, 6 instead of 1, 2, 3. -/
theorem C4_breaker_opens_on_third_failed_search :
    (pisFailedCall 1 initialCircuitBreaker).failures = 2
    ∧ (pisFailedCall 1 initialCircuitBreaker).state = CBStatus.Closed
    ∧ (pisFailedCall 2 (pisFailedCall 1 initialCircuitBreaker)).failures = 4
    ∧ (pisFailedCall 2 (pisFailedCall 1 initialCircuitBreaker)).state
        = CBStatus.Closed
    ∧ (pisFailedCall 3 (pisFailedCall 2
        (pisFailedCall 1 initialCircuitBreaker))).failures = 6
    ∧ (pisFailedCall 3 (pisFailedCall 2
        (pisFailedCall 1 initialCircuitBreaker))).state = CBStatus.Open := by
  decide

/-- C5 (counterexample): with the breaker open since time 0 (after five
recorded failures) and a call arriving at exactly 30000 ms elapsed — equal
to the recovery window — `isCircuitOpen` keeps the breaker open and does
not let the call through: the source gate at src/src/index.ts:828 is a
strict `>`, so elapsed-equal-to-window is not yet half-open, contradicting
the claim's `≥`. -/
theorem C5_exact_window_not_let_through :
    (isCircuitOpen 30000 (recordFailure 0 (recordFailure 0 (recordFailure 0
        (recordFailure 0 (recordFailure 0 initialCircuitBreaker)))))).1 = true
    ∧ (isCircuitOpen 30000 (recordFailure 0 (recordFailure 0 (recordFailure 0
        (recordFailure 0 (recordFailure 0 initialCircuitBreaker)))))).2.state
      = CBStatus.Open := by
  decide

/-- C5 (amended): when the breaker is open and strictly more than the
30000 ms recovery window has elapsed since the last failure, `isCircuitOpen`
transitions the state to half-open and returns false; the next call is also
permitted through; a probe success via `recordSuccess` closes the breaker
with `failures` reset to 0, and a probe failure at time `t` via
`recordFailure` re-opens the breaker (given the reachable-state invariant
`5 ≤ failures`) and updates `lastFailure` to `t`. -/
theorem C5_half_open_probe (cb : CircuitBreakerState) (now t : Int)
    (hst : cb.state = CBStatus.Open)
    (hel : CIRCUIT_BREAKER_RECOVERY_MS < now - cb.lastFailure)
    (hinv : CIRCUIT_BREAKER_THRESHOLD ≤ cb.failures) :
    (isCircuitOpen now cb).1 = false
    ∧ (isCircuitOpen now cb).2 = { cb with state := CBStatus.HalfOpen }
    ∧ (isCircuitOpen now (isCircuitOpen now cb).2).1 = false
    ∧ recordSuccess (isCircuitOpen now cb).2
        = ⟨0, cb.lastFailure, CBStatus.Closed⟩
    ∧ recordFailure t (isCircuitOpen now cb).2
        = ⟨cb.failures + 1, t, CBStatus.Open⟩ := by
  have hth : CIRCUIT_BREAKER_THRESHOLD ≤ cb.failures + 1 :=
    Nat.le_succ_of_le hinv
  refine ⟨?_, ?_, ?_, ?_, ?_⟩ <;>
    simp [isCircuitOpen, recordSuccess, recordFailure, hst, hel, hth]

/-- A breaker that tripped open at time 0 after five failures (the state
`recordFailure` leaves behind on the fifth consecutive failure at time 0). -/
def cbOpenAtZero : CircuitBreakerState :=
  { failures := 5, lastFailure := 0, state := CBStatus.Open }

/-- Witness for C5 (amended): breaker opened by five failures at time 0,
probe arriving at 30001 ms, probe failure recorded at 40000 ms. -/
theorem C5_half_open_probe_witness :
    (isCircuitOpen 30001 cbOpenAtZero).1 = false
    ∧ (isCircuitOpen 30001 cbOpenAtZero).2
      = { cbOpenAtZero with state := CBStatus.HalfOpen }
    ∧ (isCircuitOpen 30001 (isCircuitOpen 30001 cbOpenAtZero).2).1 = false
    ∧ recordSuccess (isCircuitOpen 30001 cbOpenAtZero).2
      = ⟨0, cbOpenAtZero.lastFailure, CBStatus.Closed⟩
    ∧ recordFailure 40000 (isCircuitOpen 30001 cbOpenAtZero).2
      = ⟨cbOpenAtZero.failures + 1, 40000, CBStatus.Open⟩ :=
  C5_half_open_probe cbOpenAtZero 30001 40000 (by decide) (by decide)
    (by decide)

theorem jsGtNum_some (a b : Int) : jsGtNum (some a) b = decide (b < a) :=
  rfl

theorem jsLtNum_some (a b : Int) : jsLtNum (some a) b = decide (a < b) :=
  rfl

/-- C1 (counterexample): with TTL = 3600 s and a cached entry of age
90000 s — beyond the 86400 s staleness tolerance — `cachedFetchViaProxy`
still returns the entry as a cache hit and never invokes the Upstream
Transport (nor schedules a revalidation): an over-stale entry is not
treated as a cache miss. -/
theorem C1_overstale_entry_still_hit :
    (cachedFetchViaProxy 0 3600 initialCircuitBreaker
        (some { ageHeader := some "90000", body := "payload" }) true
        (Transport.thrown "unreachable")).result
      = Except.ok (FetchResult.hit
          { ageHeader := some "90000", body := "payload" })
    ∧ (cachedFetchViaProxy 0 3600 initialCircuitBreaker
        (some { ageHeader := some "90000", body := "payload" }) true
        (Transport.thrown "unreachable")).transportInvoked = false
    ∧ (cachedFetchViaProxy 0 3600 initialCircuitBreaker
        (some { ageHeader := some "90000", body := "payload" }) true
        (Transport.thrown "unreachable")).revalidationScheduled = false := by
  decide

/-- C1 (amended): for every cached entry whose age is at least the
staleness tolerance (86400 s), the orchestrators still return the entry
immediately as a cache hit; no background revalidation is scheduled and the
Upstream Transport is not invoked — expiry of over-stale entries is left to
the edge cache, not the orchestrator. -/
theorem C1_overstale_served_without_revalidation (now cacheTtl : Int)
    (cb : CircuitBreakerState) (e : CacheEntry) (hasCtx : Bool)
    (t : Transport) (a : Int)
    (hop : (isCircuitOpen now cb).1 = false)
    (hage : ageSecondsOf e.ageHeader = some a)
    (htol : CACHE_STALE_TOLERANCE ≤ a) :
    (cachedFetchViaProxy now cacheTtl cb (some e) hasCtx t).result
      = Except.ok (FetchResult.hit e)
    ∧ (cachedFetchViaProxy now cacheTtl cb (some e) hasCtx t).transportInvoked
      = false
    ∧ (cachedFetchViaProxy now cacheTtl cb (some e) hasCtx
        t).revalidationScheduled = false
    ∧ (topRequest now cb (some e) hasCtx t).result
      = Except.ok (FetchResult.hit e)
    ∧ (topRequest now cb (some e) hasCtx t).transportInvoked = false
    ∧ (topRequest now cb (some e) hasCtx t).revalidationScheduled = false := by
  have hlt : jsLtNum (ageSecondsOf e.ageHeader) CACHE_STALE_TOLERANCE
      = false := by
    rw [hage, jsLtNum_some, decide_eq_false_iff_not]
    omega
  refine ⟨?_, ?_, ?_, ?_, ?_, ?_⟩ <;>
    simp [cachedFetchViaProxy, topRequest, hop, hlt]

/-- Witness for C1 (amended): the scenario TTL = 3600 s, age = 90000 s on a
fresh breaker. -/
theorem C1_overstale_served_without_revalidation_witness :
    (cachedFetchViaProxy 0 3600 initialCircuitBreaker
        (some { ageHeader := some "90000", body := "p" }) true
        (Transport.thrown "x")).result
      = Except.ok (FetchResult.hit { ageHeader := some "90000", body := "p" })
    ∧ (cachedFetchViaProxy 0 3600 initialCircuitBreaker
        (some { ageHeader := some "90000", body := "p" }) true
        (Transport.thrown "x")).transportInvoked = false
    ∧ (cachedFetchViaProxy 0 3600 initialCircuitBreaker
        (some { ageHeader := some "90000", body := "p" }) true
        (Transport.thrown "x")).revalidationScheduled = false
    ∧ (topRequest 0 initialCircuitBreaker
        (some { ageHeader := some "90000", body := "p" }) true
        (Transport.thrown "x")).result
      = Except.ok (FetchResult.hit { ageHeader := some "90000", body := "p" })
    ∧ (topRequest 0 initialCircuitBreaker
        (some { ageHeader := some "90000", body := "p" }) true
        (Transport.thrown "x")).transportInvoked = false
    ∧ (topRequest 0 initialCircuitBreaker
        (some { ageHeader := some "90000", body := "p" }) true
        (Transport.thrown "x")).revalidationScheduled = false :=
  C1_overstale_served_without_revalidation 0 3600 initialCircuitBreaker
    { ageHeader := some "90000", body := "p" } true (Transport.thrown "x")
    90000 (by decide) (by decide) (by decide)

/-- C2: a cached entry whose age lies strictly between the TTL and the
86400 s staleness tolerance is returned immediately as a cache hit while a
background revalidation is scheduled via `ctx.waitUntil`; the Upstream
Transport is not invoked on the response path and nothing is written to the
cache by the responding call, both for `cachedFetchViaProxy` (arbitrary
TTL) and for `topRequest` (TTL 7200 s). -/
theorem C2_stale_while_revalidate (now cacheTtl : Int)
    (cb : CircuitBreakerState) (e e2 : CacheEntry) (t : Transport)
    (a a2 : Int)
    (hop : (isCircuitOpen now cb).1 = false)
    (hage : ageSecondsOf e.ageHeader = some a)
    (h1 : cacheTtl < a) (h2 : a < CACHE_STALE_TOLERANCE)
    (hage2 : ageSecondsOf e2.ageHeader = some a2)
    (h3 : CACHE_TTL_TOP < a2) (h4 : a2 < CACHE_STALE_TOLERANCE) :
    (cachedFetchViaProxy now cacheTtl cb (some e) true t).result
      = Except.ok (FetchResult.hit e)
    ∧ (cachedFetchViaProxy now cacheTtl cb (some e) true
        t).revalidationScheduled = true
    ∧ (cachedFetchViaProxy now cacheTtl cb (some e) true t).transportInvoked
      = false
    ∧ (cachedFetchViaProxy now cacheTtl cb (some e) true t).cachePut = none
    ∧ (topRequest now cb (some e2) true t).result
      = Except.ok (FetchResult.hit e2)
    ∧ (topRequest now cb (some e2) true t).revalidationScheduled = true
    ∧ (topRequest now cb (some e2) true t).transportInvoked = false
    ∧ (topRequest now cb (some e2) true t).cachePut = none := by
  have hgt : jsGtNum (ageSecondsOf e.ageHeader) cacheTtl = true := by
    rw [hage, jsGtNum_some, decide_eq_true_iff]
    omega
  have hlt : jsLtNum (ageSecondsOf e.ageHeader) CACHE_STALE_TOLERANCE
      = true := by
    rw [hage, jsLtNum_some, decide_eq_true_iff]
    omega
  have hgt2 : jsGtNum (ageSecondsOf e2.ageHeader) CACHE_TTL_TOP = true := by
    rw [hage2, jsGtNum_some, decide_eq_true_iff]
    omega
  have hlt2 : jsLtNum (ageSecondsOf e2.ageHeader) CACHE_STALE_TOLERANCE
      = true := by
    rw [hage2, jsLtNum_some, decide_eq_true_iff]
    omega
  refine ⟨?_, ?_, ?_, ?_, ?_, ?_, ?_, ?_⟩ <;>
    simp [cachedFetchViaProxy, topRequest, hop, hgt, hlt, hgt2, hlt2]

/-- Witness for C2: the scenario TTL = 3600 s, age = 4000 s for
`cachedFetchViaProxy`, and age = 8000 s against the 7200 s TTL for
`topRequest`, on a fresh breaker. -/
theorem C2_stale_while_revalidate_witness :
    (cachedFetchViaProxy 0 3600 initialCircuitBreaker
        (some { ageHeader := some "4000", body := "p" }) true
        (Transport.thrown "x")).result
      = Except.ok (FetchResult.hit { ageHeader := some "4000", body := "p" })
    ∧ (cachedFetchViaProxy 0 3600 initialCircuitBreaker
        (some { ageHeader := some "4000", body := "p" }) true
        (Transport.thrown "x")).revalidationScheduled = true
    ∧ (cachedFetchViaProxy 0 3600 initialCircuitBreaker
        (some { ageHeader := some "4000", body := "p" }) true
        (Transport.thrown "x")).transportInvoked = false
    ∧ (cachedFetchViaProxy 0 3600 initialCircuitBreaker
        (some { ageHeader := some "4000", body := "p" }) true
        (Transport.thrown "x")).cachePut = none
    ∧ (topRequest 0 initialCircuitBreaker
        (some { ageHeader := some "8000", body := "q" }) true
        (Transport.thrown "x")).result
      = Except.ok (FetchResult.hit { ageHeader := some "8000", body := "q" })
    ∧ (topRequest 0 initialCircuitBreaker
        (some { ageHeader := some "8000", body := "q" }) true
        (Transport.thrown "x")).revalidationScheduled = true
    ∧ (topRequest 0 initialCircuitBreaker
        (some { ageHeader := some "8000", body := "q" }) true
        (Transport.thrown "x")).transportInvoked = false
    ∧ (topRequest 0 initialCircuitBreaker
        (some { ageHeader := some "8000", body := "q" }) true
        (Transport.thrown "x")).cachePut = none :=
  C2_stale_while_revalidate 0 3600 initialCircuitBreaker
    { ageHeader := some "4000", body := "p" }
    { ageHeader := some "8000", body := "q" } (Transport.thrown "x")
    4000 8000 (by decide) (by decide) (by decide) (by decide) (by decide)
    (by decide) (by decide)

/-- C3: while the breaker is open and the 30 s recovery window has not
elapsed, every fetch path (`cachedFetchViaProxy`, `searchRequest`,
`topRequest`, `podcastIndexSearch`) serves any cached entry regardless of
its age, and with no cached entry fails with the service-unavailable error;
in both cases the Upstream Transport is never invoked. -/
theorem C3_open_breaker_degraded_mode (now ttl : Int)
    (cb : CircuitBreakerState) (e : CacheEntry) (hasCtx : Bool)
    (t : Transport)
    (hst : cb.state = CBStatus.Open)
    (hwin : now - cb.lastFailure ≤ CIRCUIT_BREAKER_RECOVERY_MS) :
    (cachedFetchViaProxy now ttl cb (some e) hasCtx t).result
      = Except.ok (FetchResult.hit e)
    ∧ (cachedFetchViaProxy now ttl cb (some e) hasCtx t).transportInvoked
      = false
    ∧ (cachedFetchViaProxy now ttl cb none hasCtx t).result
      = Except.error FetchError.serviceUnavailable
    ∧ (cachedFetchViaProxy now ttl cb none hasCtx t).transportInvoked = false
    ∧ (searchRequest now cb (some e) t).result = Except.ok (FetchResult.hit e)
    ∧ (searchRequest now cb (some e) t).transportInvoked = false
    ∧ (searchRequest now cb none t).result
      = Except.error FetchError.serviceUnavailable
    ∧ (searchRequest now cb none t).transportInvoked = false
    ∧ (topRequest now cb (some e) hasCtx t).result
      = Except.ok (FetchResult.hit e)
    ∧ (topRequest now cb (some e) hasCtx t).transportInvoked = false
    ∧ (topRequest now cb none hasCtx t).result
      = Except.error FetchError.serviceUnavailable
    ∧ (topRequest now cb none hasCtx t).transportInvoked = false
    ∧ (podcastIndexSearch now cb (some e) t).result
      = Except.ok (FetchResult.hit e)
    ∧ (podcastIndexSearch now cb (some e) t).transportInvoked = false
    ∧ (podcastIndexSearch now cb none t).result
      = Except.error FetchError.serviceUnavailable
    ∧ (podcastIndexSearch now cb none t).transportInvoked = false := by
  have hopen : (isCircuitOpen now cb).1 = true := by
    have hne : ¬ CIRCUIT_BREAKER_RECOVERY_MS < now - cb.lastFailure :=
      not_lt.mpr hwin
    simp [isCircuitOpen, hst, hne]
  refine ⟨?_, ?_, ?_, ?_, ?_, ?_, ?_, ?_, ?_, ?_, ?_, ?_, ?_, ?_, ?_, ?_⟩ <;>
    simp [cachedFetchViaProxy, searchRequest, topRequest, podcastIndexSearch,
      hopen]

/-- Witness for C3: breaker open since time 0 with five failures, a call
at 20000 ms (inside the 30 s window), with and without a very old cached
entry. -/
theorem C3_open_breaker_degraded_mode_witness :
    (cachedFetchViaProxy 20000 3600 cbOpenAtZero
        (some { ageHeader := some "999999", body := "old" }) true
        (Transport.thrown "x")).result
      = Except.ok (FetchResult.hit { ageHeader := some "999999", body := "old" })
    ∧ (cachedFetchViaProxy 20000 3600 cbOpenAtZero
        (some { ageHeader := some "999999", body := "old" }) true
        (Transport.thrown "x")).transportInvoked = false
    ∧ (cachedFetchViaProxy 20000 3600 cbOpenAtZero none true
        (Transport.thrown "x")).result
      = Except.error FetchError.serviceUnavailable
    ∧ (cachedFetchViaProxy 20000 3600 cbOpenAtZero none true
        (Transport.thrown "x")).transportInvoked = false
    ∧ (searchRequest 20000 cbOpenAtZero
        (some { ageHeader := some "999999", body := "old" })
        (Transport.thrown "x")).result
      = Except.ok (FetchResult.hit { ageHeader := some "999999", body := "old" })
    ∧ (searchRequest 20000 cbOpenAtZero
        (some { ageHeader := some "999999", body := "old" })
        (Transport.thrown "x")).transportInvoked = false
    ∧ (searchRequest 20000 cbOpenAtZero none (Transport.thrown "x")).result
      = Except.error FetchError.serviceUnavailable
    ∧ (searchRequest 20000 cbOpenAtZero none
        (Transport.thrown "x")).transportInvoked = false
    ∧ (topRequest 20000 cbOpenAtZero
        (some { ageHeader := some "999999", body := "old" }) true
        (Transport.thrown "x")).result
      = Except.ok (FetchResult.hit { ageHeader := some "999999", body := "old" })
    ∧ (topRequest 20000 cbOpenAtZero
        (some { ageHeader := some "999999", body := "old" }) true
        (Transport.thrown "x")).transportInvoked = false
    ∧ (topRequest 20000 cbOpenAtZero none true (Transport.thrown "x")).result
      = Except.error FetchError.serviceUnavailable
    ∧ (topRequest 20000 cbOpenAtZero none true
        (Transport.thrown "x")).transportInvoked = false
    ∧ (podcastIndexSearch 20000 cbOpenAtZero
        (some { ageHeader := some "999999", body := "old" })
        (Transport.thrown "x")).result
      = Except.ok (FetchResult.hit { ageHeader := some "999999", body := "old" })
    ∧ (podcastIndexSearch 20000 cbOpenAtZero
        (some { ageHeader := some "999999", body := "old" })
        (Transport.thrown "x")).transportInvoked = false
    ∧ (podcastIndexSearch 20000 cbOpenAtZero none
        (Transport.thrown "x")).result
      = Except.error FetchError.serviceUnavailable
    ∧ (podcastIndexSearch 20000 cbOpenAtZero none
        (Transport.thrown "x")).transportInvoked = false :=
  C3_open_breaker_degraded_mode 20000 3600 cbOpenAtZero
    { ageHeader := some "999999", body := "old" } true (Transport.thrown "x")
    (by decide) (by decide)

/-- C10: a cached entry whose `age` header is absent, or present but empty,
gets `ageSeconds = 0` and is served as an ordinary fresh cache hit with no
background revalidation scheduled, for any nonnegative TTL — both in
`cachedFetchViaProxy` and in `topRequest`. -/
theorem C10_missing_age_header_is_fresh (now cacheTtl : Int)
    (cb : CircuitBreakerState) (e : CacheEntry) (hasCtx : Bool)
    (t : Transport)
    (hop : (isCircuitOpen now cb).1 = false)
    (httl : 0 ≤ cacheTtl)
    (hage : e.ageHeader = none ∨ e.ageHeader = some "") :
    ageSecondsOf e.ageHeader = some 0
    ∧ (cachedFetchViaProxy now cacheTtl cb (some e) hasCtx t).result
      = Except.ok (FetchResult.hit e)
    ∧ (cachedFetchViaProxy now cacheTtl cb (some e) hasCtx
        t).revalidationScheduled = false
    ∧ (cachedFetchViaProxy now cacheTtl cb (some e) hasCtx t).transportInvoked
      = false
    ∧ (topRequest now cb (some e) hasCtx t).result
      = Except.ok (FetchResult.hit e)
    ∧ (topRequest now cb (some e) hasCtx t).revalidationScheduled = false
    ∧ (topRequest now cb (some e) hasCtx t).transportInvoked = false := by
  have hzero : ageSecondsOf e.ageHeader = some 0 := by
    rcases hage with h | h <;> simp [ageSecondsOf, h]
  have hgt : jsGtNum (ageSecondsOf e.ageHeader) cacheTtl = false := by
    rw [hzero, jsGtNum_some, decide_eq_false_iff_not]
    omega
  have hgt2 : jsGtNum (ageSecondsOf e.ageHeader) CACHE_TTL_TOP = false := by
    rw [hzero, jsGtNum_some, decide_eq_false_iff_not]
    decide
  refine ⟨hzero, ?_, ?_, ?_, ?_, ?_, ?_⟩ <;>
    simp [cachedFetchViaProxy, topRequest, hop, hgt, hgt2]

/-- Witness for C10: an entry with no `age` header at TTL 3600 s on a fresh
breaker. -/
theorem C10_missing_age_header_is_fresh_witness :
    ageSecondsOf (none : Option String) = some 0
    ∧ (cachedFetchViaProxy 0 3600 initialCircuitBreaker
        (some { ageHeader := none, body := "p" }) true
        (Transport.thrown "x")).result
      = Except.ok (FetchResult.hit { ageHeader := none, body := "p" })
    ∧ (cachedFetchViaProxy 0 3600 initialCircuitBreaker
        (some { ageHeader := none, body := "p" }) true
        (Transport.thrown "x")).revalidationScheduled = false
    ∧ (cachedFetchViaProxy 0 3600 initialCircuitBreaker
        (some { ageHeader := none, body := "p" }) true
        (Transport.thrown "x")).transportInvoked = false
    ∧ (topRequest 0 initialCircuitBreaker
        (some { ageHeader := none, body := "p" }) true
        (Transport.thrown "x")).result
      = Except.ok (FetchResult.hit { ageHeader := none, body := "p" })
    ∧ (topRequest 0 initialCircuitBreaker
        (some { ageHeader := none, body := "p" }) true
        (Transport.thrown "x")).revalidationScheduled = false
    ∧ (topRequest 0 initialCircuitBreaker
        (some { ageHeader := none, body := "p" }) true
        (Transport.thrown "x")).transportInvoked = false :=
  C10_missing_age_header_is_fresh 0 3600 initialCircuitBreaker
    { ageHeader := none, body := "p" } true (Transport.thrown "x")
    (by decide) (by decide) (Or.inl rfl)

theorem cachedFetchViaProxy_cachePut_only_success (now ttl : Int)
    (cb : CircuitBreakerState) (cached : Option CacheEntry) (hasCtx : Bool)
    (t : Transport)
    (h : (cachedFetchViaProxy now ttl cb cached hasCtx t).cachePut ≠ none) :
    ∃ r, t = Transport.resp r ∧ r.ok = true := by
  by_cases h1 : (isCircuitOpen now cb).1 <;> cases cached <;> cases t <;>
    simp [cachedFetchViaProxy, h1] at h ⊢
  rename_i r
  by_cases hok : r.ok
  · exact hok
  · simp [hok] at h

theorem searchRequest_cachePut_only_success (now : Int)
    (cb : CircuitBreakerState) (cached : Option CacheEntry) (t : Transport)
    (h : (searchRequest now cb cached t).cachePut ≠ none) :
    ∃ r, t = Transport.resp r ∧ r.ok = true := by
  by_cases h1 : (isCircuitOpen now cb).1 <;> cases cached <;> cases t <;>
    simp [searchRequest, h1] at h ⊢
  rename_i r
  by_cases hok : r.ok
  · exact hok
  · simp [hok] at h

theorem topRequest_cachePut_only_success (now : Int)
    (cb : CircuitBreakerState) (cached : Option CacheEntry) (hasCtx : Bool)
    (t : Transport)
    (h : (topRequest now cb cached hasCtx t).cachePut ≠ none) :
    ∃ r, t = Transport.resp r ∧ r.ok = true := by
  by_cases h1 : (isCircuitOpen now cb).1 <;> cases cached <;> cases t <;>
    simp [topRequest, h1] at h ⊢
  rename_i r
  by_cases hok : r.ok
  · exact hok
  · simp [hok] at h

theorem podcastIndexSearch_cachePut_only_success (now : Int)
    (cb : CircuitBreakerState) (cached : Option CacheEntry) (t : Transport)
    (h : (podcastIndexSearch now cb cached t).cachePut ≠ none) :
    ∃ r, t = Transport.resp r ∧ r.ok = true := by
  by_cases h1 : (isCircuitOpen now cb).1 <;> cases cached <;> cases t <;>
    simp [podcastIndexSearch, h1] at h ⊢
  rename_i r
  by_cases hok : r.ok
  · exact hok
  · simp [hok] at h

/-- C7 (counterexample): on the iTunes-fallback search path, a cache miss
whose transport call throws propagates the error to the caller but leaves
the breaker completely untouched — no failure is recorded (`searchRequest`
has no try/catch around its fetch), contradicting the claim that every
failed upstream call on every fetch path records a breaker failure. -/
theorem C7_search_thrown_error_skips_breaker :
    (searchRequest 0 initialCircuitBreaker none
        (Transport.thrown "connection reset")).result
      = Except.error (FetchError.thrown "connection reset")
    ∧ (searchRequest 0 initialCircuitBreaker none
        (Transport.thrown "connection reset")).breaker
      = initialCircuitBreaker
    ∧ (searchRequest 0 initialCircuitBreaker none
        (Transport.thrown "connection reset")).breaker.failures = 0
    ∧ (searchRequest 0 initialCircuitBreaker none
        (Transport.thrown "connection reset")).transportInvoked = true := by
  decide

/-- C7 (amended): on a cache miss, `cachedFetchViaProxy` records a breaker
failure and caches nothing both when the transport returns a non-success
status and when it throws; `searchRequest` and `topRequest` each record a
breaker failure and throw on a non-success status without caching, but a
thrown transport error propagates with the breaker untouched on those two
paths; on every fetch path, a body is written to the cache only when the
transport returned a success response. -/
theorem C7_failures_propagated_never_cached (now ttl : Int)
    (cb : CircuitBreakerState) (hasCtx : Bool) (r : UpstreamResponse)
    (m : String)
    (hop : (isCircuitOpen now cb).1 = false)
    (hnok : r.ok = false) :
    (cachedFetchViaProxy now ttl cb none hasCtx (Transport.resp r)).breaker
      = recordFailure now (isCircuitOpen now cb).2
    ∧ (cachedFetchViaProxy now ttl cb none hasCtx
        (Transport.resp r)).cachePut = none
    ∧ (cachedFetchViaProxy now ttl cb none hasCtx
        (Transport.thrown m)).breaker
      = recordFailure now (isCircuitOpen now cb).2
    ∧ (cachedFetchViaProxy now ttl cb none hasCtx
        (Transport.thrown m)).result
      = Except.error (FetchError.thrown m)
    ∧ (cachedFetchViaProxy now ttl cb none hasCtx
        (Transport.thrown m)).cachePut = none
    ∧ (searchRequest now cb none (Transport.resp r)).breaker
      = recordFailure now (isCircuitOpen now cb).2
    ∧ (searchRequest now cb none (Transport.resp r)).result
      = Except.error (FetchError.thrown
          ("iTunes API error: " ++ toString r.status ++ " " ++ r.statusText))
    ∧ (searchRequest now cb none (Transport.resp r)).cachePut = none
    ∧ (searchRequest now cb none (Transport.thrown m)).breaker
      = (isCircuitOpen now cb).2
    ∧ (searchRequest now cb none (Transport.thrown m)).result
      = Except.error (FetchError.thrown m)
    ∧ (searchRequest now cb none (Transport.thrown m)).cachePut = none
    ∧ (topRequest now cb none hasCtx (Transport.resp r)).breaker
      = recordFailure now (isCircuitOpen now cb).2
    ∧ (topRequest now cb none hasCtx (Transport.resp r)).result
      = Except.error (FetchError.thrown
          ("iTunes API error: " ++ toString r.status ++ " " ++ r.statusText))
    ∧ (topRequest now cb none hasCtx (Transport.resp r)).cachePut = none
    ∧ (topRequest now cb none hasCtx (Transport.thrown m)).breaker
      = (isCircuitOpen now cb).2
    ∧ (topRequest now cb none hasCtx (Transport.thrown m)).result
      = Except.error (FetchError.thrown m)
    ∧ (topRequest now cb none hasCtx (Transport.thrown m)).cachePut = none
    ∧ (∀ (n2 t2 : Int) (cb2 : CircuitBreakerState)
        (cached2 : Option CacheEntry) (hc2 : Bool) (tr2 : Transport),
        (cachedFetchViaProxy n2 t2 cb2 cached2 hc2 tr2).cachePut ≠ none →
        ∃ rr, tr2 = Transport.resp rr ∧ rr.ok = true)
    ∧ (∀ (n2 : Int) (cb2 : CircuitBreakerState)
        (cached2 : Option CacheEntry) (tr2 : Transport),
        (searchRequest n2 cb2 cached2 tr2).cachePut ≠ none →
        ∃ rr, tr2 = Transport.resp rr ∧ rr.ok = true)
    ∧ (∀ (n2 : Int) (cb2 : CircuitBreakerState)
        (cached2 : Option CacheEntry) (hc2 : Bool) (tr2 : Transport),
        (topRequest n2 cb2 cached2 hc2 tr2).cachePut ≠ none →
        ∃ rr, tr2 = Transport.resp rr ∧ rr.ok = true)
    ∧ (∀ (n2 : Int) (cb2 : CircuitBreakerState)
        (cached2 : Option CacheEntry) (tr2 : Transport),
        (podcastIndexSearch n2 cb2 cached2 tr2).cachePut ≠ none →
        ∃ rr, tr2 = Transport.resp rr ∧ rr.ok = true) := by
  refine ⟨?_, ?_, ?_, ?_, ?_, ?_, ?_, ?_, ?_, ?_, ?_, ?_, ?_, ?_, ?_, ?_, ?_,
    cachedFetchViaProxy_cachePut_only_success,
    searchRequest_cachePut_only_success,
    topRequest_cachePut_only_success,
    podcastIndexSearch_cachePut_only_success⟩ <;>
    simp [cachedFetchViaProxy, searchRequest, topRequest, hop, hnok]

/-- Witness for C7 (amended): a miss on a fresh breaker with an upstream
503 and with a thrown transport error. -/
theorem C7_failures_propagated_never_cached_witness :
    (cachedFetchViaProxy 9 3600 initialCircuitBreaker none true
        (Transport.resp { status := 503, statusText := "Service Unavailable"
                          body := "" })).breaker
      = recordFailure 9 (isCircuitOpen 9 initialCircuitBreaker).2
    ∧ (cachedFetchViaProxy 9 3600 initialCircuitBreaker none true
        (Transport.resp { status := 503, statusText := "Service Unavailable"
                          body := "" })).cachePut = none
    ∧ (cachedFetchViaProxy 9 3600 initialCircuitBreaker none true
        (Transport.thrown "timeout")).breaker
      = recordFailure 9 (isCircuitOpen 9 initialCircuitBreaker).2
    ∧ (cachedFetchViaProxy 9 3600 initialCircuitBreaker none true
        (Transport.thrown "timeout")).result
      = Except.error (FetchError.thrown "timeout")
    ∧ (cachedFetchViaProxy 9 3600 initialCircuitBreaker none true
        (Transport.thrown "timeout")).cachePut = none
    ∧ (searchRequest 9 initialCircuitBreaker none
        (Transport.resp { status := 503, statusText := "Service Unavailable"
                          body := "" })).breaker
      = recordFailure 9 (isCircuitOpen 9 initialCircuitBreaker).2
    ∧ (searchRequest 9 initialCircuitBreaker none
        (Transport.resp { status := 503, statusText := "Service Unavailable"
                          body := "" })).result
      = Except.error (FetchError.thrown
          ("iTunes API error: " ++ toString 503 ++ " Service Unavailable"))
    ∧ (searchRequest 9 initialCircuitBreaker none
        (Transport.resp { status := 503, statusText := "Service Unavailable"
                          body := "" })).cachePut = none
    ∧ (searchRequest 9 initialCircuitBreaker none
        (Transport.thrown "timeout")).breaker
      = (isCircuitOpen 9 initialCircuitBreaker).2
    ∧ (searchRequest 9 initialCircuitBreaker none
        (Transport.thrown "timeout")).result
      = Except.error (FetchError.thrown "timeout")
    ∧ (searchRequest 9 initialCircuitBreaker none
        (Transport.thrown "timeout")).cachePut = none
    ∧ (topRequest 9 initialCircuitBreaker none true
        (Transport.resp { status := 503, statusText := "Service Unavailable"
                          body := "" })).breaker
      = recordFailure 9 (isCircuitOpen 9 initialCircuitBreaker).2
    ∧ (topRequest 9 initialCircuitBreaker none true
        (Transport.resp { status := 503, statusText := "Service Unavailable"
                          body := "" })).result
      = Except.error (FetchError.thrown
          ("iTunes API error: " ++ toString 503 ++ " Service Unavailable"))
    ∧ (topRequest 9 initialCircuitBreaker none true
        (Transport.resp { status := 503, statusText := "Service Unavailable"
                          body := "" })).cachePut = none
    ∧ (topRequest 9 initialCircuitBreaker none true
        (Transport.thrown "timeout")).breaker
      = (isCircuitOpen 9 initialCircuitBreaker).2
    ∧ (topRequest 9 initialCircuitBreaker none true
        (Transport.thrown "timeout")).result
      = Except.error (FetchError.thrown "timeout")
    ∧ (topRequest 9 initialCircuitBreaker none true
        (Transport.thrown "timeout")).cachePut = none
    ∧ (∀ (n2 t2 : Int) (cb2 : CircuitBreakerState)
        (cached2 : Option CacheEntry) (hc2 : Bool) (tr2 : Transport),
        (cachedFetchViaProxy n2 t2 cb2 cached2 hc2 tr2).cachePut ≠ none →
        ∃ rr, tr2 = Transport.resp rr ∧ rr.ok = true)
    ∧ (∀ (n2 : Int) (cb2 : CircuitBreakerState)
        (cached2 : Option CacheEntry) (tr2 : Transport),
        (searchRequest n2 cb2 cached2 tr2).cachePut ≠ none →
        ∃ rr, tr2 = Transport.resp rr ∧ rr.ok = true)
    ∧ (∀ (n2 : Int) (cb2 : CircuitBreakerState)
        (cached2 : Option CacheEntry) (hc2 : Bool) (tr2 : Transport),
        (topRequest n2 cb2 cached2 hc2 tr2).cachePut ≠ none →
        ∃ rr, tr2 = Transport.resp rr ∧ rr.ok = true)
    ∧ (∀ (n2 : Int) (cb2 : CircuitBreakerState)
        (cached2 : Option CacheEntry) (tr2 : Transport),
        (podcastIndexSearch n2 cb2 cached2 tr2).cachePut ≠ none →
        ∃ rr, tr2 = Transport.resp rr ∧ rr.ok = true) :=
  C7_failures_propagated_never_cached 9 3600 initialCircuitBreaker true
    { status := 503, statusText := "Service Unavailable", body := "" }
    "timeout" (by decide) (by decide)

/-- C8: one background revalidation run overwrites the cache entry and
records breaker success when the upstream responds ok; on a non-success
status or a thrown transport error it records breaker failure, writes
nothing to the cache (the stale entry is left untouched), and in every case
completes without throwing — for both `revalidateCacheViaProxy` and
`revalidateTopPodcastsCache`. -/
theorem C8_revalidation_effects (now : Int) (cb : CircuitBreakerState)
    (r : UpstreamResponse) (m : String) :
    (r.ok = true →
      revalidateCacheViaProxy now cb (Transport.resp r)
        = ⟨recordSuccess cb, some r.body, false⟩
      ∧ revalidateTopPodcastsCache now cb (Transport.resp r)
        = ⟨recordSuccess cb, some r.body, false⟩)
    ∧ (r.ok = false →
      revalidateCacheViaProxy now cb (Transport.resp r)
        = ⟨recordFailure now cb, none, false⟩
      ∧ revalidateTopPodcastsCache now cb (Transport.resp r)
        = ⟨recordFailure now cb, none, false⟩)
    ∧ revalidateCacheViaProxy now cb (Transport.thrown m)
      = ⟨recordFailure now cb, none, false⟩
    ∧ revalidateTopPodcastsCache now cb (Transport.thrown m)
      = ⟨recordFailure now cb, none, false⟩ := by
  refine ⟨fun hok => ?_, fun hnok => ?_, rfl, rfl⟩ <;>
    simp_all [revalidateCacheViaProxy, revalidateTopPodcastsCache]

/-- Witness for C8: a successful revalidation with body `fresh`, and a
failed one with status 500, from the initial breaker state. -/
theorem C8_revalidation_effects_witness :
    (revalidateCacheViaProxy 5 initialCircuitBreaker
        (Transport.resp { status := 200, statusText := "OK", body := "fresh" })
      = ⟨recordSuccess initialCircuitBreaker, some "fresh", false⟩
    ∧ revalidateTopPodcastsCache 5 initialCircuitBreaker
        (Transport.resp { status := 200, statusText := "OK", body := "fresh" })
      = ⟨recordSuccess initialCircuitBreaker, some "fresh", false⟩)
    ∧ (revalidateCacheViaProxy 5 initialCircuitBreaker
        (Transport.resp { status := 500, statusText := "ISE", body := "e" })
      = ⟨recordFailure 5 initialCircuitBreaker, none, false⟩
    ∧ revalidateTopPodcastsCache 5 initialCircuitBreaker
        (Transport.resp { status := 500, statusText := "ISE", body := "e" })
      = ⟨recordFailure 5 initialCircuitBreaker, none, false⟩) :=
  ⟨(C8_revalidation_effects 5 initialCircuitBreaker
      { status := 200, statusText := "OK", body := "fresh" } "x").1
    (by decide),
   (C8_revalidation_effects 5 initialCircuitBreaker
      { status := 500, statusText := "ISE", body := "e" } "x").2.1
    (by decide)⟩

/-- C9 (counterexample): an upstream 503 on the search path is thrown as
`iTunes API error: 503 Service Unavailable` and the top-level catch returns
that exact text to the API client in a 500 response: the upstream status is
embedded in what the client sees (responses for different upstream statuses
differ), and a network-level error message like `connection reset` also
reaches the client verbatim instead of a generic message. -/
theorem C9_upstream_details_reach_client :
    (searchRequest 0 initialCircuitBreaker none
        (Transport.resp { status := 503, statusText := "Service Unavailable"
                          body := "" })).result
      = Except.error
          (FetchError.thrown "iTunes API error: 503 Service Unavailable")
    ∧ fetchHandlerCatch (some "iTunes API error: 503 Service Unavailable")
      = { status := 500, body := "iTunes API error: 503 Service Unavailable" }
    ∧ fetchHandlerCatch (some "iTunes API error: 503 Service Unavailable")
      ≠ fetchHandlerCatch (some "iTunes API error: 404 Not Found")
    ∧ fetchHandlerCatch (some "connection reset")
      = { status := 500, body := "connection reset" } := by
  decide

/-- C9 (amended): an upstream status ≥ 400 on the search path yields a
client response with status 500 (a 500-class response) whose body is
`iTunes API error: <status> <statusText>` — the upstream status details are
included, not masked; a thrown transport error reaches the client as a 500
response carrying the original message, the same text that is logged. -/
theorem C9_error_mapping (now : Int) (cb : CircuitBreakerState)
    (r : UpstreamResponse) (m : String)
    (hop : (isCircuitOpen now cb).1 = false)
    (hst : 400 ≤ r.status) :
    (searchRequest now cb none (Transport.resp r)).result
      = Except.error (FetchError.thrown
          ("iTunes API error: " ++ toString r.status ++ " " ++ r.statusText))
    ∧ fetchHandlerCatch (some
        ("iTunes API error: " ++ toString r.status ++ " " ++ r.statusText))
      = { status := 500
          body := "iTunes API error: " ++ toString r.status ++ " "
            ++ r.statusText }
    ∧ (searchRequest now cb none (Transport.thrown m)).result
      = Except.error (FetchError.thrown m)
    ∧ fetchHandlerCatch (some m) = { status := 500, body := m } := by
  have hnok : r.ok = false := by
    simp [UpstreamResponse.ok]
    omega
  refine ⟨?_, rfl, ?_, rfl⟩ <;> simp [searchRequest, fetchHandlerCatch, hop, hnok]

/-- Witness for C9 (amended): upstream 503 and a thrown `connection reset`
on a fresh breaker. -/
theorem C9_error_mapping_witness :
    (searchRequest 0 initialCircuitBreaker none
        (Transport.resp { status := 503, statusText := "Service Unavailable"
                          body := "" })).result
      = Except.error (FetchError.thrown
          ("iTunes API error: " ++ toString 503 ++ " Service Unavailable"))
    ∧ fetchHandlerCatch (some
        ("iTunes API error: " ++ toString 503 ++ " Service Unavailable"))
      = { status := 500
          body := "iTunes API error: " ++ toString 503
            ++ " Service Unavailable" }
    ∧ (searchRequest 0 initialCircuitBreaker none
        (Transport.thrown "connection reset")).result
      = Except.error (FetchError.thrown "connection reset")
    ∧ fetchHandlerCatch (some "connection reset")
      = { status := 500, body := "connection reset" } :=
  C9_error_mapping 0 initialCircuitBreaker
    { status := 503, statusText := "Service Unavailable", body := "" }
    "connection reset" (by decide) (by decide)

end Podr
